import Mathlib

/-!
Verification of the market dashboard in src/app.py: the fetch pipeline
(price history, news, fundamentals), the sentiment aggregation of the
AI Sentiment tab, the analysis main block, and the favorites toggle.

External effects are parameters of the embedding: a Python call that
either returns a value or raises an exception is an `Except Unit`
argument, and the pretrained classifier is a function argument of the
same shape.  Machine floats from the provider are modelled as exact
rationals; the one place where a non-finite float can arise (the
unguarded percent-change division) is modelled by an explicit
constructor.
-/

namespace MarketApp

/-- One daily OHLC bar of the provider's price history: one row of the
DataFrame returned by stock.history, restricted to the columns the app
reads (Open, High, Low, Close). -/
structure Bar where
  openP : ℚ
  highP : ℚ
  lowP : ℚ
  closeP : ℚ
deriving DecidableEq

/-- get_price_history (src/app.py lines 116-120): returns the provider's
bars, and an empty DataFrame when the provider call raises. -/
def get_price_history (providerBars : Except Unit (List Bar)) : List Bar :=
  match providerBars with
  | .ok bars => bars
  | .error _ => []

/-- Python negative indexing series.iloc[-k] for k ≥ 1: the k-th element
from the end; raises IndexError (modelled as .error) when the series has
fewer than k elements. -/
def ilocNeg (xs : List ℚ) (k : Nat) : Except Unit ℚ :=
  if h : 1 ≤ k ∧ k ≤ xs.length then
    .ok (xs.get ⟨xs.length - k, by omega⟩)
  else .error ()

/-- Value of the day-over-day percent change (src/app.py line 183).  The
division has no zero guard in the source; with float semantics a zero
previous close yields an IEEE non-finite value, modelled by the
.nonFinite constructor since ℚ has no infinity. -/
inductive PctChange where
  | val : ℚ → PctChange
  | nonFinite : PctChange
deriving DecidableEq

/-- What the Price Dynamics tab computes (src/app.py lines 180-192). -/
structure PriceMetrics where
  current : ℚ
  prevClose : ℚ
  change : ℚ
  pctChange : PctChange
  openToday : ℚ
  highToday : ℚ
  lowToday : ℚ
deriving DecidableEq

/-- The Close column of the history DataFrame. -/
def closes (history : List Bar) : List ℚ := history.map (fun b => b.closeP)

/-- The Price Dynamics tab (src/app.py lines 179-196): reads iloc[-1] and
iloc[-2] of the Close column and iloc[-1] of Open/High/Low; the caller
guards only against an empty history, so on a one-bar history the
iloc[-2] read raises and the whole tab (hence the run, there being no
handler) errors. -/
def priceTab (history : List Bar) : Except Unit PriceMetrics :=
  match ilocNeg (closes history) 1, ilocNeg (closes history) 2,
        ilocNeg (history.map (fun b => b.openP)) 1,
        ilocNeg (history.map (fun b => b.highP)) 1,
        ilocNeg (history.map (fun b => b.lowP)) 1 with
  | .ok current, .ok prevClose, .ok o, .ok hi, .ok lo =>
    .ok ⟨current, prevClose, current - prevClose,
         (if prevClose = 0 then PctChange.nonFinite
          else PctChange.val ((current - prevClose) / prevClose * 100)),
         o, hi, lo⟩
  | _, _, _, _, _ => .error ()

/-- The nested content dict of a provider news item; the title and
summary keys are both optional. -/
structure ArticleContent where
  title : Option String
  summary : Option String
deriving DecidableEq

/-- One provider news item; the content key itself may be absent
(src/app.py line 209 reads it with an empty dict as default). -/
structure Article where
  content : Option ArticleContent
deriving DecidableEq

/-- art.get of content with the empty dict default (line 209). -/
def storyOf (art : Article) : ArticleContent :=
  art.content.getD ⟨none, none⟩

/-- story.get of summary combined with Python truthiness (line 210): a
missing or empty-string summary is falsy and the item is skipped. -/
def usableSummary : Option String → Option String
  | some s => if s = "" then none else some s
  | none => none

/-- Output of one classifier invocation pipe(text)[0]: a label among
positive, negative, neutral, and a confidence score. -/
structure ClassifierOutput where
  label : String
  score : ℚ
deriving DecidableEq

/-- One entry of the results list (line 212). -/
structure SentimentResult where
  title : String
  label : String
  score : ℚ
deriving DecidableEq

/-- The plain dict subscript story of title (line 212): raises KeyError
when the title key is absent. -/
def titleField (t : Option String) : Except Unit String :=
  match t with
  | some s => .ok s
  | none => .error ()

/-- The classification loop (src/app.py lines 207-212) over the already
truncated article list: items without a usable summary are skipped;
for the rest the classifier is invoked and a result row is appended.
Any exception (a classifier failure, a missing title) escapes the loop:
there is no per-item handler, only the tab-wide one of line 230. -/
def classifyArticles (pipe : String → Except Unit ClassifierOutput) :
    List Article → Except Unit (List SentimentResult)
  | [] => .ok []
  | art :: rest =>
    match usableSummary (storyOf art).summary with
    | none => classifyArticles pipe rest
    | some s => do
      let res ← pipe s
      let t ← titleField (storyOf art).title
      let more ← classifyArticles pipe rest
      .ok (⟨t, res.label, res.score⟩ :: more)

/-- The summaries the loop of lines 207-212 hands to the classifier, in
order, assuming no invocation raises (a raise cuts the actual sequence
short, so in general this over-approximates the invoked calls). -/
def invokedSummaries : List Article → List String
  | [] => []
  | art :: rest =>
    match usableSummary (storyOf art).summary with
    | none => invokedSummaries rest
    | some s => s :: invokedSummaries rest

/-- pos of src/app.py line 216. -/
def posCount (results : List SentimentResult) : Nat :=
  results.countP (fun r => r.label == "positive")

/-- neg of src/app.py line 217. -/
def negCount (results : List SentimentResult) : Nat :=
  results.countP (fun r => r.label == "negative")

/-- The Market Mood metric (src/app.py line 222), emoji dropped: BULLISH
when pos > neg and BEARISH otherwise.  The source has no neutral branch. -/
def marketMood (results : List SentimentResult) : String :=
  if posCount results > negCount results then "BULLISH" else "BEARISH"

/-- What the AI Sentiment tab (src/app.py lines 198-230) renders. -/
inductive NewsTab where
  /-- results nonempty: positive count, negative count, the mood metric,
  and the per-item expander list. -/
  | rendered : Nat → Nat → String → List SentimentResult → NewsTab
  /-- news nonempty but no item had a usable summary: line 215's if has
  no else branch, so nothing is rendered. -/
  | blank : NewsTab
  /-- the provider returned no news: the info message of line 229. -/
  | noNews : NewsTab
  /-- the except of line 230: the news-feed-unavailable warning. -/
  | unavailable : NewsTab
deriving DecidableEq

/-- The AI Sentiment tab: fetch news (newsRes models stock_obj.news,
error = the attribute access raised), truncate to the slider's article
count, classify, count, and render; every exception inside the try of
lines 199-229 lands in the warning branch. -/
def newsTab (newsRes : Except Unit (List Article)) (numArticles : Nat)
    (pipe : String → Except Unit ClassifierOutput) : NewsTab :=
  match newsRes with
  | .error _ => .unavailable
  | .ok news =>
    if news.isEmpty then .noNews
    else
      match classifyArticles pipe (news.take numArticles) with
      | .error _ => .unavailable
      | .ok results =>
        if results.isEmpty then .blank
        else .rendered (posCount results) (negCount results)
               (marketMood results) results

/-- The full-fidelity provider dict stock.info: its number of populated
fields (what len reads) and the keys get_fundamental_info uses, each
optional.  A Python None result is Option.none one level up. -/
structure ProviderInfo where
  fieldCount : Nat
  marketCap : Option Int
  trailingPE : Option ℚ
  fiftyTwoWeekHigh : Option ℚ
  fiftyTwoWeekLow : Option ℚ
  dividendYield : Option ℚ
  averageVolume : Option Int
  heldPercentInstitutions : Option ℚ
  heldPercentInsiders : Option ℚ
  sector : Option String
  industry : Option String
deriving DecidableEq

/-- The fields of the light-weight call stock.fast_info the app reads. -/
structure FastInfo where
  market_cap : Int
  year_high : ℚ
  year_low : ℚ
  last_volume : Int
deriving DecidableEq

/-- The dividend-yield display of src/app.py line 91: the percentage
when the field is present and truthy (nonzero), the literal zero-percent
string when missing or zero, and the not-available marker the Lite dict
stores instead (line 109). -/
inductive DivDisplay where
  | pct : ℚ → DivDisplay
  | zeroPct : DivDisplay
  | notAvail : DivDisplay
deriving DecidableEq

/-- Line 91: if info.get of dividendYield is truthy, format the value
times one hundred, else the zero-percent string. -/
def divDisplay (dy : Option ℚ) : DivDisplay :=
  match dy with
  | some v => if v = 0 then DivDisplay.zeroPct else DivDisplay.pct (v * 100)
  | none => DivDisplay.zeroPct

/-- The status field of the fundamentals dict: Pro (full-fidelity) or
Lite (reduced). -/
inductive Tier where
  | pro
  | lite
deriving DecidableEq

/-- The dict get_fundamental_info returns.  Keys the Lite dict does not
contain at all (the ownership percentages inst and insider) are Option
fields, none in Lite mode; pe is none where the source stores an N/A
string. -/
structure FundData where
  status : Tier
  mcap : Int
  pe : Option ℚ
  high : ℚ
  low : ℚ
  div : DivDisplay
  vol : Int
  inst : Option ℚ
  insider : Option ℚ
  sector : String
  industry : String
deriving DecidableEq

/-- Strategy 1's dict (src/app.py lines 85-97): the get defaults of the
source (0 for numbers, the N/A string for sector and industry). -/
def proData (info : ProviderInfo) : FundData :=
  ⟨Tier.pro, info.marketCap.getD 0, info.trailingPE,
   info.fiftyTwoWeekHigh.getD 0, info.fiftyTwoWeekLow.getD 0,
   divDisplay info.dividendYield, info.averageVolume.getD 0,
   some (info.heldPercentInstitutions.getD 0 * 100),
   some (info.heldPercentInsiders.getD 0 * 100),
   info.sector.getD "N/A", info.industry.getD "N/A"⟩

/-- Strategy 2's dict (src/app.py lines 101-113): market cap, 52-week
high/low and volume from fast_info; no ownership keys. -/
def liteData (fast : FastInfo) : FundData :=
  ⟨Tier.lite, fast.market_cap, none, fast.year_high, fast.year_low,
   DivDisplay.notAvail, fast.last_volume, none, none,
   "Basic Data Mode", "Rate Limit Bypass Active"⟩

/-- get_fundamental_info (src/app.py lines 78-114).  infoRes models the
stock.info access (.error = it raised, .ok none = a falsy None dict,
.ok (some i) = a dict with i.fieldCount populated fields); fastRes
models stock.fast_info.  The Pro dict is returned only when info is
truthy with more than five fields; every other outcome of strategy 1
falls through to strategy 2, whose own failure yields the Python None of
line 114.  The return type Option FundData records that the function
itself never raises. -/
def get_fundamental_info (infoRes : Except Unit (Option ProviderInfo))
    (fastRes : Except Unit FastInfo) : Option FundData :=
  match infoRes with
  | .ok (some info) =>
    if 5 < info.fieldCount then some (proData info)
    else
      match fastRes with
      | .ok fast => some (liteData fast)
      | .error _ => none
  | _ =>
    match fastRes with
    | .ok fast => some (liteData fast)
    | .error _ => none

/-- Strategy 1 produced nothing: the stock.info access raised, or the
dict was falsy (None or empty), or it had at most five populated fields
(the sparse case of line 84's len test). -/
def sparseInfo (infoRes : Except Unit (Option ProviderInfo)) : Prop :=
  match infoRes with
  | .error _ => True
  | .ok none => True
  | .ok (some info) => info.fieldCount ≤ 5

/-- What each tab of one analysis run renders (src/app.py lines 177-269). -/
structure TabsRender where
  price : PriceMetrics
  news : NewsTab
  fund : Option FundData
deriving DecidableEq

/-- Outcome of the analysis main block: the three tabs, or the
could-not-fetch-data error state of line 270, in which no tab (price,
news or fundamentals) is built at all. -/
inductive AnalysisOutcome where
  | tabs : TabsRender → AnalysisOutcome
  | noData : AnalysisOutcome
deriving DecidableEq

/-- The analysis main block (src/app.py lines 171-270).  An exception in
the price tab — the unguarded iloc[-2] — has no handler anywhere, so it
escapes as the .error of the whole run; the news tab and the
fundamentals fetch contain their failures locally (the try of line 199,
the two try blocks inside get_fundamental_info). -/
def runAnalysis (priceRes : Except Unit (List Bar))
    (newsRes : Except Unit (List Article)) (numArticles : Nat)
    (pipe : String → Except Unit ClassifierOutput)
    (infoRes : Except Unit (Option ProviderInfo))
    (fastRes : Except Unit FastInfo) : Except Unit AnalysisOutcome :=
  let history := get_price_history priceRes
  if history.isEmpty then .ok AnalysisOutcome.noData
  else
    match priceTab history with
    | .error e => .error e
    | .ok pm =>
      .ok (AnalysisOutcome.tabs ⟨pm, newsTab newsRes numArticles pipe,
            get_fundamental_info infoRes fastRes⟩)

/-- The Add/Remove Favorite handler (src/app.py lines 154-160):
list.remove drops the first occurrence when the ticker is present,
list.append adds it at the end otherwise. -/
def toggleFavorite (favorites : List String) (ticker : String) : List String :=
  if ticker ∈ favorites then favorites.erase ticker
  else favorites ++ [ticker]

/-- Favorites states reachable from the initial empty session state
(src/app.py line 12) by repeated presses of the toggle button. -/
inductive ReachableFav : List String → Prop where
  | init : ReachableFav []
  | step (favorites : List String) (ticker : String) :
      ReachableFav favorites → ReachableFav (toggleFavorite favorites ticker)

/-! ## Helper lemmas -/

theorem ilocNeg_ok (xs : List ℚ) (k : Nat) (h1 : 1 ≤ k) (h2 : k ≤ xs.length) :
    ilocNeg xs k = .ok (xs.get ⟨xs.length - k, by omega⟩) := by
  unfold ilocNeg
  rw [dif_pos ⟨h1, h2⟩]

theorem priceTab_isOk (bars : List Bar) (h : 2 ≤ bars.length) :
    ∃ pm, priceTab bars = Except.ok pm := by
  have hc : (closes bars).length = bars.length := List.length_map _ _
  have ho : (bars.map (fun b => b.openP)).length = bars.length := List.length_map _ _
  have hh : (bars.map (fun b => b.highP)).length = bars.length := List.length_map _ _
  have hl : (bars.map (fun b => b.lowP)).length = bars.length := List.length_map _ _
  unfold priceTab
  rw [ilocNeg_ok (closes bars) 1 (by omega) (by omega),
      ilocNeg_ok (closes bars) 2 (by omega) (by omega),
      ilocNeg_ok (bars.map (fun b => b.openP)) 1 (by omega) (by omega),
      ilocNeg_ok (bars.map (fun b => b.highP)) 1 (by omega) (by omega),
      ilocNeg_ok (bars.map (fun b => b.lowP)) 1 (by omega) (by omega)]
  exact ⟨_, rfl⟩

theorem isEmpty_false_of_two_le (bars : List Bar) (h : 2 ≤ bars.length) :
    bars.isEmpty = false := by
  cases bars with
  | nil => simp at h
  | cons a t => rfl

theorem runAnalysis_eq_tabs (bars : List Bar)
    (newsRes : Except Unit (List Article)) (numArticles : Nat)
    (pipe : String → Except Unit ClassifierOutput)
    (infoRes : Except Unit (Option ProviderInfo))
    (fastRes : Except Unit FastInfo) (pm : PriceMetrics)
    (hne : bars.isEmpty = false) (hpt : priceTab bars = .ok pm) :
    runAnalysis (.ok bars) newsRes numArticles pipe infoRes fastRes
      = .ok (AnalysisOutcome.tabs ⟨pm, newsTab newsRes numArticles pipe,
          get_fundamental_info infoRes fastRes⟩) := by
  unfold runAnalysis get_price_history
  simp only [hne, Bool.false_eq_true, if_false, hpt]

theorem usableSummary_ne_empty (o : Option String) (s : String)
    (h : usableSummary o = some s) : s ≠ "" := by
  cases o with
  | none => simp [usableSummary] at h
  | some s0 =>
    by_cases h0 : s0 = ""
    · simp [usableSummary, h0] at h
    · simp [usableSummary, h0] at h
      exact h ▸ h0

/-! ## C1: the Market Mood metric on tied counts -/

/-- A batch holding one neutral item has equal positive and negative
counts (both zero), yet the Market Mood metric reads BEARISH, not
NEUTRAL: line 222 has no neutral branch. -/
theorem neutral_tie_not_neutral :
    posCount [⟨"t", "neutral", 1⟩] = negCount [⟨"t", "neutral", 1⟩] ∧
    marketMood [⟨"t", "neutral", 1⟩] = "BEARISH" ∧
    marketMood [⟨"t", "neutral", 1⟩] ≠ "NEUTRAL" := by
  refine ⟨rfl, rfl, ?_⟩
  decide

/-- C1 (amended): the Market Mood metric is BULLISH exactly when the
positive count strictly exceeds the negative count, and BEARISH in every
other case — ties included, the all-neutral batch included; the metric
is always one of these two strings, never NEUTRAL. -/
theorem marketMood_binary (results : List SentimentResult) :
    (marketMood results = "BULLISH" ↔ negCount results < posCount results) ∧
    (marketMood results = "BEARISH" ↔ posCount results ≤ negCount results) ∧
    (marketMood results = "BULLISH" ∨ marketMood results = "BEARISH") := by
  by_cases h : negCount results < posCount results
  · rw [marketMood, if_pos h]
    refine ⟨⟨fun _ => h, fun _ => rfl⟩, ⟨fun hb => ?_, fun hle => ?_⟩, Or.inl rfl⟩
    · exact absurd hb (by decide)
    · omega
  · rw [marketMood, if_neg h]
    refine ⟨⟨fun hb => ?_, fun hlt => ?_⟩, ⟨fun _ => by omega, fun _ => rfl⟩,
      Or.inr rfl⟩
    · exact absurd hb (by decide)
    · omega

/-! ## C3: a one-bar history crashes the run -/

/-- A history with exactly one bar passes the non-empty gate of line 176
but the iloc[-2] read of the previous close (line 181) raises, and no
handler exists between it and the top of the script: the run as a whole
errors instead of degrading. -/
theorem one_bar_history_crashes :
    runAnalysis (.ok [⟨100, 101, 99, 100⟩]) (.ok []) 15
      (fun _ => .error ()) (.error ()) (.error ()) = .error () := by
  rfl

/-! ## C5: ratio computations and zero denominators -/

/-- A two-bar history whose previous close is zero is accepted by the
price tab, and the unguarded percent-change division yields the
non-finite value — not a not-applicable state, which the source does not
have for this computation. -/
theorem zero_prev_close_nonfinite :
    priceTab [⟨0, 0, 0, 0⟩, ⟨5, 5, 5, 5⟩]
      = Except.ok ⟨5, 0, 5, PctChange.nonFinite, 5, 5, 5⟩ := by
  unfold priceTab
  rw [ilocNeg_ok (closes [⟨0, 0, 0, 0⟩, ⟨5, 5, 5, 5⟩]) 1 (by norm_num)
        (by simp [closes]),
      ilocNeg_ok (closes [⟨0, 0, 0, 0⟩, ⟨5, 5, 5, 5⟩]) 2 (by norm_num)
        (by simp [closes]),
      ilocNeg_ok _ 1 (by norm_num) (by simp),
      ilocNeg_ok _ 1 (by norm_num) (by simp),
      ilocNeg_ok _ 1 (by norm_num) (by simp)]
  norm_num [closes]

/-! ## C7: empty price series is an explicit no-data state -/

/-- C7: a raising provider call yields the empty series, and an empty
series — whether from a raise or from a bar-less result — sends the run
to the explicit no-data outcome, an ok value carrying no price metrics
and no tabs, never an error escaping to the user. -/
theorem empty_series_no_data :
    get_price_history (Except.error ()) = ([] : List Bar) ∧
    (∀ (newsRes : Except Unit (List Article)) (numArticles : Nat)
       (pipe : String → Except Unit ClassifierOutput)
       (infoRes : Except Unit (Option ProviderInfo))
       (fastRes : Except Unit FastInfo),
      runAnalysis (Except.error ()) newsRes numArticles pipe infoRes fastRes
        = Except.ok AnalysisOutcome.noData ∧
      runAnalysis (Except.ok []) newsRes numArticles pipe infoRes fastRes
        = Except.ok AnalysisOutcome.noData) :=
  ⟨rfl, fun _ _ _ _ _ => ⟨rfl, rfl⟩⟩

/-! ## C9: permutation invariance of the aggregate -/

/-- C9: the positive and negative counts and hence the Market Mood
metric are invariant under any permutation of the results batch — the
mood is a function of the label multiset alone. -/
theorem aggregate_perm_invariant (r1 r2 : List SentimentResult)
    (h : r1.Perm r2) :
    posCount r1 = posCount r2 ∧ negCount r1 = negCount r2 ∧
    marketMood r1 = marketMood r2 := by
  have hp : posCount r1 = posCount r2 := h.countP_eq _
  have hn : negCount r1 = negCount r2 := h.countP_eq _
  refine ⟨hp, hn, ?_⟩
  unfold marketMood
  rw [hp, hn]

/-- The permutation invariance applied to a concrete two-element batch
and its swap. -/
theorem aggregate_perm_invariant_witness :
    posCount [⟨"a", "positive", 1⟩, ⟨"b", "negative", 1⟩]
      = posCount [⟨"b", "negative", 1⟩, ⟨"a", "positive", 1⟩] ∧
    negCount [⟨"a", "positive", 1⟩, ⟨"b", "negative", 1⟩]
      = negCount [⟨"b", "negative", 1⟩, ⟨"a", "positive", 1⟩] ∧
    marketMood [⟨"a", "positive", 1⟩, ⟨"b", "negative", 1⟩]
      = marketMood [⟨"b", "negative", 1⟩, ⟨"a", "positive", 1⟩] :=
  aggregate_perm_invariant _ _
    (List.Perm.swap (⟨"b", "negative", 1⟩ : SentimentResult)
      (⟨"a", "positive", 1⟩ : SentimentResult) [])

/-! ## C2: independence of the four fetches -/

/-- With the price fetch raising while the news fetch, the classifier and
the fundamentals fetch would all succeed, the run renders the global
no-data error state: no news results and no fundamentals are produced,
so a price failure is not component-local. -/
theorem price_failure_blocks_others :
    runAnalysis (.error ()) (.ok [⟨some ⟨some "t", some "good news"⟩⟩]) 15
      (fun _ => .ok ⟨"positive", 9/10⟩)
      (.ok (some ⟨10, some 1, some 1, some 1, some 1, some 1, some 1,
        some 1, some 1, some "IT", some "Software"⟩))
      (.ok ⟨1, 1, 1, 1⟩)
      = .ok AnalysisOutcome.noData := by
  rfl

/-- C2 (amended): news and fundamentals failures are contained to their
own tabs — with a history of at least two bars a total fundamentals
failure still yields the price and news tabs, and a news failure still
yields the price and fundamentals tabs — but a failed (or empty) price
fetch sends the run to the global no-data state in which neither the
news tab nor the fundamentals tab is built. -/
theorem fetch_isolation :
    (∀ (bars : List Bar) (newsRes : Except Unit (List Article))
       (numArticles : Nat) (pipe : String → Except Unit ClassifierOutput),
      2 ≤ bars.length →
      ∃ pm, runAnalysis (.ok bars) newsRes numArticles pipe
          (.error ()) (.error ())
        = .ok (AnalysisOutcome.tabs
            ⟨pm, newsTab newsRes numArticles pipe, none⟩)) ∧
    (∀ (bars : List Bar) (numArticles : Nat)
       (pipe : String → Except Unit ClassifierOutput)
       (infoRes : Except Unit (Option ProviderInfo))
       (fastRes : Except Unit FastInfo),
      2 ≤ bars.length →
      ∃ pm, runAnalysis (.ok bars) (.error ()) numArticles pipe infoRes fastRes
        = .ok (AnalysisOutcome.tabs
            ⟨pm, NewsTab.unavailable, get_fundamental_info infoRes fastRes⟩)) ∧
    (∀ (newsRes : Except Unit (List Article)) (numArticles : Nat)
       (pipe : String → Except Unit ClassifierOutput)
       (infoRes : Except Unit (Option ProviderInfo))
       (fastRes : Except Unit FastInfo),
      runAnalysis (.error ()) newsRes numArticles pipe infoRes fastRes
        = .ok AnalysisOutcome.noData) := by
  refine ⟨?_, ?_, fun _ _ _ _ _ => rfl⟩
  · intro bars newsRes numArticles pipe h
    obtain ⟨pm, hpm⟩ := priceTab_isOk bars h
    exact ⟨pm, runAnalysis_eq_tabs bars newsRes numArticles pipe _ _ pm
      (isEmpty_false_of_two_le bars h) hpm⟩
  · intro bars numArticles pipe infoRes fastRes h
    obtain ⟨pm, hpm⟩ := priceTab_isOk bars h
    exact ⟨pm, runAnalysis_eq_tabs bars _ numArticles pipe infoRes fastRes pm
      (isEmpty_false_of_two_le bars h) hpm⟩

/-- The isolation applied at a concrete two-bar history with both
fundamentals calls raising: price and news tabs still render. -/
theorem fetch_isolation_witness :
    ∃ pm, runAnalysis (.ok [⟨1, 1, 1, 1⟩, ⟨2, 2, 2, 2⟩]) (.ok []) 15
      (fun _ => .error ()) (.error ()) (.error ())
      = .ok (AnalysisOutcome.tabs
          ⟨pm, newsTab (.ok []) 15 (fun _ => .error ()), none⟩) :=
  fetch_isolation.1 [⟨1, 1, 1, 1⟩, ⟨2, 2, 2, 2⟩] (.ok []) 15
    (fun _ => .error ()) (by norm_num)

/-! ## C4: a classifier failure aborts the whole batch -/

/-- A two-article batch where the classifier raises on the first summary
but would classify the second: the tab renders the unavailable warning —
the second article is not classified or counted, the whole batch is
dropped, refuting per-article dropping. -/
theorem classifier_failure_drops_whole_batch :
    newsTab
      (.ok [⟨some ⟨some "t1", some "bad"⟩⟩, ⟨some ⟨some "t2", some "good"⟩⟩])
      15 (fun s => if s == "good" then .ok ⟨"positive", 9/10⟩ else .error ())
      = NewsTab.unavailable := by
  rfl

/-- C4 (amended): the loop of lines 207-212 has no per-item handler —
either every article with a usable summary is classified (the ok case
carries exactly one result per such article) or the whole batch aborts
with the first exception; and an aborted loop lands in the tab-wide
except, rendering the unavailable warning with no counts at all. -/
theorem classifier_failure_aborts_batch :
    (∀ (pipe : String → Except Unit ClassifierOutput) (arts : List Article),
      (∃ rs, classifyArticles pipe arts = Except.ok rs ∧
        rs.length = (arts.filter
          (fun a => (usableSummary (storyOf a).summary).isSome)).length) ∨
      classifyArticles pipe arts = Except.error ()) ∧
    (∀ (news : List Article) (numArticles : Nat)
       (pipe : String → Except Unit ClassifierOutput),
      news.isEmpty = false →
      classifyArticles pipe (news.take numArticles) = Except.error () →
      newsTab (Except.ok news) numArticles pipe = NewsTab.unavailable) := by
  constructor
  · intro pipe arts
    induction arts with
    | nil => exact Or.inl ⟨[], rfl, by simp⟩
    | cons a rest ih =>
      cases hs : usableSummary (storyOf a).summary with
      | none =>
        have heq : classifyArticles pipe (a :: rest)
            = classifyArticles pipe rest := by
          simp [classifyArticles, hs]
        have hf : (a :: rest).filter
              (fun a => (usableSummary (storyOf a).summary).isSome)
            = rest.filter
              (fun a => (usableSummary (storyOf a).summary).isSome) := by
          simp [List.filter_cons, hs]
        rcases ih with ⟨rs, h1, h2⟩ | h1
        · exact Or.inl ⟨rs, heq.trans h1, by rw [hf]; exact h2⟩
        · exact Or.inr (heq.trans h1)
      | some s =>
        cases hp : pipe s with
        | error e =>
          right
          simp [classifyArticles, hs, hp, Bind.bind, Except.bind]
        | ok res =>
          cases ht : titleField (storyOf a).title with
          | error e =>
            right
            simp [classifyArticles, hs, hp, ht, Bind.bind, Except.bind]
          | ok t =>
            rcases ih with ⟨rs, h1, h2⟩ | h1
            · left
              refine ⟨⟨t, res.label, res.score⟩ :: rs, ?_, ?_⟩
              · simp [classifyArticles, hs, hp, ht, h1, Bind.bind, Except.bind]
              · simp only [List.filter_cons, hs, Option.isSome_some, if_true,
                  List.length_cons]
                omega
            · right
              simp [classifyArticles, hs, hp, ht, h1, Bind.bind, Except.bind]
  · intro news numArticles pipe hne hcl
    unfold newsTab
    simp only [hne, Bool.false_eq_true, if_false, hcl]

/-- The abort property applied at a concrete one-article batch whose
classification raises. -/
theorem classifier_failure_aborts_batch_witness :
    newsTab (Except.ok [⟨some ⟨some "t1", some "news text"⟩⟩]) 15
      (fun _ => Except.error ()) = NewsTab.unavailable :=
  classifier_failure_aborts_batch.2 [⟨some ⟨some "t1", some "news text"⟩⟩] 15
    (fun _ => Except.error ()) rfl rfl

/-- C5 (amended): the percent-change division of line 183 has no zero
guard — a zero previous close yields the non-finite value, and a nonzero
one the plain quotient; there is no not-applicable state for this ratio.
The dividend-yield display treats a missing or zero field as the literal
zero-percent string, again not as not-applicable. -/
theorem ratio_guards :
    (∀ (bars : List Bar) (pm : PriceMetrics), priceTab bars = Except.ok pm →
      (pm.prevClose = 0 → pm.pctChange = PctChange.nonFinite) ∧
      (pm.prevClose ≠ 0 →
        pm.pctChange = PctChange.val (pm.change / pm.prevClose * 100))) ∧
    divDisplay none = DivDisplay.zeroPct ∧
    divDisplay (some 0) = DivDisplay.zeroPct := by
  refine ⟨?_, rfl, by simp [divDisplay]⟩
  intro bars pm hpm
  unfold priceTab at hpm
  split at hpm
  · injection hpm with hpm
    subst hpm
    constructor
    · intro hz
      simp at hz
      simp [hz]
    · intro hz
      simp at hz
      simp [hz]
  · exact absurd hpm (by simp)

/-- The unguarded division exhibited on the concrete two-bar history
whose previous close is zero. -/
theorem ratio_guards_witness :
    (⟨5, 0, 5, PctChange.nonFinite, 5, 5, 5⟩ : PriceMetrics).pctChange
      = PctChange.nonFinite :=
  (ratio_guards.1 [⟨0, 0, 0, 0⟩, ⟨5, 5, 5, 5⟩]
    ⟨5, 0, 5, PctChange.nonFinite, 5, 5, 5⟩
    (by
      unfold priceTab
      rw [ilocNeg_ok (closes [⟨0, 0, 0, 0⟩, ⟨5, 5, 5, 5⟩]) 1 (by norm_num)
            (by simp [closes]),
          ilocNeg_ok (closes [⟨0, 0, 0, 0⟩, ⟨5, 5, 5, 5⟩]) 2 (by norm_num)
            (by simp [closes]),
          ilocNeg_ok _ 1 (by norm_num) (by simp),
          ilocNeg_ok _ 1 (by norm_num) (by simp),
          ilocNeg_ok _ 1 (by norm_num) (by simp)]
      norm_num [closes])).1 rfl

/-! ## C6: the two-strategy fundamentals fetch -/

/-- C6: the tier policy of get_fundamental_info — a truthy info dict
with more than five fields yields the Pro dict and the light call is
never consulted (the result does not depend on it); a raised, falsy or
sparse full call falls through to the light call, whose success yields
the Lite dict with the ownership fields absent and the market-cap and
52-week fields carried over; and when the light call raises too the
result is the unavailable None — the function is total, it cannot itself
raise. -/
theorem fundamentals_tier_policy :
    (∀ (info : ProviderInfo) (fastRes fastRes2 : Except Unit FastInfo),
      5 < info.fieldCount →
      get_fundamental_info (Except.ok (some info)) fastRes
        = get_fundamental_info (Except.ok (some info)) fastRes2 ∧
      get_fundamental_info (Except.ok (some info)) fastRes
        = some (proData info) ∧
      (proData info).status = Tier.pro) ∧
    (∀ (infoRes : Except Unit (Option ProviderInfo)) (fast : FastInfo),
      sparseInfo infoRes →
      get_fundamental_info infoRes (Except.ok fast) = some (liteData fast) ∧
      (liteData fast).status = Tier.lite ∧ (liteData fast).inst = none ∧
      (liteData fast).insider = none ∧
      (liteData fast).mcap = fast.market_cap ∧
      (liteData fast).high = fast.year_high ∧
      (liteData fast).low = fast.year_low) ∧
    (∀ infoRes : Except Unit (Option ProviderInfo), sparseInfo infoRes →
      get_fundamental_info infoRes (Except.error ()) = none) := by
  refine ⟨?_, ?_, ?_⟩
  · intro info f1 f2 h
    refine ⟨?_, ?_, rfl⟩ <;> simp [get_fundamental_info, h]
  · intro infoRes fast h
    refine ⟨?_, rfl, rfl, rfl, rfl, rfl, rfl⟩
    match infoRes with
    | .error () => rfl
    | .ok none => rfl
    | .ok (some info) =>
      have hle : info.fieldCount ≤ 5 := h
      simp [get_fundamental_info]
      omega
  · intro infoRes h
    match infoRes with
    | .error () => rfl
    | .ok none => rfl
    | .ok (some info) =>
      have hle : info.fieldCount ≤ 5 := h
      simp [get_fundamental_info]
      omega

/-- The tier policy applied at concrete inputs: a raising full call with
a succeeding light call gives the Lite dict, and with both raising the
result is the unavailable None. -/
theorem fundamentals_tier_policy_witness :
    get_fundamental_info (Except.error ()) (Except.ok ⟨1000, 50, 40, 99⟩)
      = some (liteData ⟨1000, 50, 40, 99⟩) ∧
    get_fundamental_info (Except.error ()) (Except.error ()) = none :=
  ⟨(fundamentals_tier_policy.2.1 (Except.error ()) ⟨1000, 50, 40, 99⟩
      trivial).1,
   fundamentals_tier_policy.2.2 (Except.error ()) trivial⟩

/-! ## C8: empty summaries are excluded before classification -/

/-- C8: the truthiness check of line 210 — every summary the loop hands
to the classifier is a non-empty string, and skipped items are
invisible: the loop computes exactly what it would compute on the list
with the unusable items filtered away beforehand, so an excluded item
contributes nothing to the results, the counts or the mood. -/
theorem skip_unusable_summaries :
    (∀ (arts : List Article) (s : String),
      s ∈ invokedSummaries arts → s ≠ "") ∧
    (∀ (pipe : String → Except Unit ClassifierOutput) (arts : List Article),
      classifyArticles pipe arts
        = classifyArticles pipe (arts.filter
            (fun a => (usableSummary (storyOf a).summary).isSome))) := by
  constructor
  · intro arts
    induction arts with
    | nil => intro s hs; simp [invokedSummaries] at hs
    | cons a rest ih =>
      intro s hs
      cases hu : usableSummary (storyOf a).summary with
      | none =>
        simp only [invokedSummaries, hu] at hs
        exact ih s hs
      | some s0 =>
        simp only [invokedSummaries, hu, List.mem_cons] at hs
        rcases hs with hs | hs
        · exact hs ▸ usableSummary_ne_empty _ _ hu
        · exact ih s hs
  · intro pipe arts
    induction arts with
    | nil => rfl
    | cons a rest ih =>
      cases hu : usableSummary (storyOf a).summary with
      | none => simp [classifyArticles, hu, List.filter_cons, ih]
      | some s => simp [classifyArticles, hu, List.filter_cons, ih]

/-- The filtering equality applied to a concrete batch whose only item
lacks a summary: the classifier (here one that would raise on any call)
is never consulted and the loop returns the empty result list. -/
theorem skip_unusable_summaries_witness :
    classifyArticles (fun _ => Except.error ()) [⟨some ⟨some "t", none⟩⟩]
      = Except.ok [] := by
  rw [skip_unusable_summaries.2 (fun _ => Except.error ())
    [⟨some ⟨some "t", none⟩⟩]]
  rfl

/-! ## C10: the favorites list is a duplicate-free toggle -/

theorem toggleFavorite_nodup (favorites : List String) (ticker : String)
    (h : favorites.Nodup) : (toggleFavorite favorites ticker).Nodup := by
  unfold toggleFavorite
  split
  · exact h.erase ticker
  · rename_i hmem
    exact h.append (List.nodup_singleton ticker)
      (by simp [List.disjoint_singleton, hmem])

/-- C10: every favorites state reachable from the initial empty list by
the Add/Remove handler is duplicate-free, and on a duplicate-free state
the handler is a toggle: one press flips the ticker's membership and two
presses restore the original membership. -/
theorem favorites_nodup_toggle :
    (∀ favorites, ReachableFav favorites → favorites.Nodup) ∧
    (∀ (favorites : List String) (ticker : String), favorites.Nodup →
      ((ticker ∈ toggleFavorite favorites ticker ↔ ticker ∉ favorites) ∧
       ∀ x, x ∈ toggleFavorite (toggleFavorite favorites ticker) ticker
          ↔ x ∈ favorites)) := by
  constructor
  · intro favorites h
    induction h with
    | init => exact List.nodup_nil
    | step fav t _ ih => exact toggleFavorite_nodup fav t ih
  · intro fav t hnd
    by_cases hmem : t ∈ fav
    · constructor
      · rw [toggleFavorite, if_pos hmem]
        simp [hnd.mem_erase_iff, hmem]
      · intro x
        have h1 : toggleFavorite fav t = fav.erase t := by
          rw [toggleFavorite, if_pos hmem]
        rw [h1, toggleFavorite, if_neg hnd.not_mem_erase]
        simp only [List.mem_append, hnd.mem_erase_iff, List.mem_singleton]
        constructor
        · rintro (⟨hne, hx⟩ | hx)
          · exact hx
          · exact hx ▸ hmem
        · intro hx
          by_cases hxt : x = t
          · exact Or.inr hxt
          · exact Or.inl ⟨hxt, hx⟩
    · constructor
      · rw [toggleFavorite, if_neg hmem]
        simp [hmem]
      · intro x
        have h1 : toggleFavorite fav t = fav ++ [t] := by
          rw [toggleFavorite, if_neg hmem]
        rw [h1, toggleFavorite, if_pos (by simp : t ∈ fav ++ [t]),
          List.erase_append_right _ hmem, List.erase_cons_head,
          List.append_nil]

/-- The toggle behaviour applied at a concrete reachable state: one
favorite already stored, a different ticker toggled in and out. -/
theorem favorites_nodup_toggle_witness :
    (["INFY.NS"] : List String).Nodup ∧
    ("TCS.NS" ∈ toggleFavorite ["INFY.NS"] "TCS.NS"
      ↔ "TCS.NS" ∉ (["INFY.NS"] : List String)) := by
  have h := favorites_nodup_toggle
  refine ⟨?_, (h.2 ["INFY.NS"] "TCS.NS" (by decide)).1⟩
  have hr : ReachableFav (toggleFavorite [] "INFY.NS") :=
    ReachableFav.step [] "INFY.NS" ReachableFav.init
  have he : toggleFavorite [] "INFY.NS" = ["INFY.NS"] := by decide
  exact he ▸ h.1 _ hr

end MarketApp
